import Mathlib

/-!
Shallow embedding of the availability engine of the
SISTER_DistributionFileSystem repository: the metadata store
(database_schema.py), the health monitor and replication manager
(replication_manager.py) and the advanced recovery manager
(advanced_recovery.py).  SQLite tables are modelled as Lean lists of rows,
timestamps as natural-number seconds, and the outbound HTTP calls as
explicit environment functions passed to each operation.  Logging and the
statistics counters that no claim mentions are not modelled.
-/

namespace DFS

/-- Raw file bytes, as a list of byte values. -/
abbrev Bytes := List Nat

/-- One row of the `replicas` table (database_schema.py, `init_database`). -/
structure Replica where
  file_id : String
  node_id : String
  node_address : String
  status : String
  last_verified : Option Nat
deriving Repr, DecidableEq

/-- One row of the `files` table. -/
structure FileRow where
  file_id : String
  filename : String
  file_size : Nat
  checksum : Option String
  replication_factor : Nat
deriving Repr, DecidableEq

/-- One row of the `storage_nodes` table. -/
structure StorageNode where
  node_id : String
  node_address : String
  status : String
  available_space : Nat
  total_files : Nat
  last_heartbeat : Nat
deriving Repr, DecidableEq

/-- The metadata store (class `DFSDatabase`): the three tables the claims
touch.  `upload_history` is not needed by any claim. -/
structure DFSDatabase where
  files : List FileRow
  replicas : List Replica
  nodes : List StorageNode
deriving Repr, DecidableEq

/-- `DFSDatabase.add_replica`: a plain `INSERT INTO replicas` — SQLite
appends a fresh autoincrement row; there is no uniqueness constraint on
`(file_id, node_id)` in the schema. -/
def add_replica (db : DFSDatabase) (file_id node_id node_address status : String) :
    DFSDatabase :=
  { db with replicas :=
      db.replicas ++ [⟨file_id, node_id, node_address, status, none⟩] }

/-- `DFSDatabase.update_replica_status`: `UPDATE replicas SET status, last_verified
WHERE file_id = ? AND node_id = ?`. -/
def update_replica_status (db : DFSDatabase) (file_id node_id status : String)
    (now : Nat) : DFSDatabase :=
  { db with replicas := db.replicas.map fun r =>
      if r.file_id = file_id ∧ r.node_id = node_id then
        { r with status := status, last_verified := some now }
      else r }

/-- `DFSDatabase.update_file_checksum`: `UPDATE files SET checksum = ? WHERE
file_id = ?` — an unconditional write. -/
def update_file_checksum (db : DFSDatabase) (file_id checksum : String) :
    DFSDatabase :=
  { db with files := db.files.map fun f =>
      if f.file_id = file_id then { f with checksum := some checksum } else f }

/-- `DFSDatabase.delete_file`: deletes the file rows, then the replica rows,
and returns `cursor.rowcount > 0` of the **last** statement, i.e. whether at
least one replica row was deleted. -/
def delete_file (db : DFSDatabase) (file_id : String) : DFSDatabase × Bool :=
  ({ db with
      files := db.files.filter fun f => ¬ f.file_id = file_id,
      replicas := db.replicas.filter fun r => ¬ r.file_id = file_id },
   decide (0 < (db.replicas.filter fun r => r.file_id = file_id).length))

/-- `DFSDatabase.get_replicas`: `SELECT * FROM replicas WHERE file_id = ?`. -/
def get_replicas (db : DFSDatabase) (file_id : String) : List Replica :=
  db.replicas.filter fun r => r.file_id = file_id

/-- `DFSDatabase.get_file` result: the file row joined with its replicas. -/
structure FileInfo where
  file_id : String
  filename : String
  file_size : Nat
  checksum : Option String
  replication_factor : Nat
  replicas : List Replica
deriving Repr, DecidableEq

/-- `DFSDatabase.get_file`: the first `files` row with the id, together with
the file's replicas; `none` when the row is absent. -/
def get_file (db : DFSDatabase) (file_id : String) : Option FileInfo :=
  match db.files.find? (fun f => f.file_id == file_id) with
  | none => none
  | some f =>
      some ⟨f.file_id, f.filename, f.file_size, f.checksum,
            f.replication_factor, get_replicas db file_id⟩

/-- `DFSDatabase.mark_node_inactive`. -/
def mark_node_inactive (db : DFSDatabase) (node_id : String) : DFSDatabase :=
  { db with nodes := db.nodes.map fun n =>
      if n.node_id = node_id then { n with status := "inactive" } else n }

/-- `DFSDatabase.get_all_nodes` (the claims do not depend on the
`created_at DESC` display order). -/
def get_all_nodes (db : DFSDatabase) : List StorageNode :=
  db.nodes

/-- Stable descending insertion by `available_space`, the deterministic
model of `ORDER BY available_space DESC` in `get_active_nodes`. -/
def insertBySpace (n : StorageNode) : List StorageNode → List StorageNode
  | [] => [n]
  | m :: ms =>
      if m.available_space ≤ n.available_space then n :: m :: ms
      else m :: insertBySpace n ms

/-- Stable sort of the node rows by `available_space` descending. -/
def sortBySpaceDesc : List StorageNode → List StorageNode
  | [] => []
  | n :: ns => insertBySpace n (sortBySpaceDesc ns)

/-- `DFSDatabase.get_active_nodes`: rows with `status = 'active'` ordered by
space; each row whose heartbeat is at least `timeout` old is marked inactive
as a side effect instead of being returned. -/
def get_active_nodes (db : DFSDatabase) (now timeout : Nat) :
    DFSDatabase × List StorageNode :=
  (sortBySpaceDesc (db.nodes.filter fun n => n.status == "active")).foldl
    (fun acc n =>
      if now - n.last_heartbeat < timeout then (acc.1, acc.2 ++ [n])
      else (mark_node_inactive acc.1 n.node_id, acc.2))
    (db, [])

/-- The list of nodes `get_active_nodes` returns (its second component). -/
def activeNodesList (db : DFSDatabase) (now timeout : Nat) : List StorageNode :=
  (get_active_nodes db now timeout).2

/-! ## Health monitor (replication_manager.py, class `HealthMonitor`) -/

/-- The statistics fields of `HealthMonitor` that the claims mention. -/
structure HealthStats where
  nodes_failed : Nat
  nodes_recovered : Nat
deriving Repr, DecidableEq

/-- `HealthMonitor._mark_node_replicas_inactive`: the body only writes a log
line — no replica row is read or modified. -/
def mark_node_replicas_inactive (db : DFSDatabase) (_node_id : String) :
    DFSDatabase :=
  db

/-- One iteration of the `for node in nodes` loop of
`HealthMonitor._check_node_health`, with `failure_threshold = 30`. -/
def check_node_health_step (failure_threshold now : Nat)
    (acc : DFSDatabase × HealthStats) (node : StorageNode) :
    DFSDatabase × HealthStats :=
  let time_diff := now - node.last_heartbeat
  if failure_threshold < time_diff then
    if node.status = "active" then
      let db := mark_node_inactive acc.1 node.node_id
      let db := mark_node_replicas_inactive db node.node_id
      (db, { acc.2 with nodes_failed := acc.2.nodes_failed + 1 })
    else acc
  else
    if node.status = "inactive" then
      (acc.1, { acc.2 with nodes_recovered := acc.2.nodes_recovered + 1 })
    else acc

/-- `HealthMonitor._check_node_health`: one tick over the node snapshot. -/
def check_node_health (db : DFSDatabase) (stats : HealthStats) (now : Nat) :
    DFSDatabase × HealthStats :=
  (get_all_nodes db).foldl (check_node_health_step 30 now) (db, stats)

/-- Number of replica rows with a given `(file_id, node_id)` pair. -/
def replicaPairCount (db : DFSDatabase) (file_id node_id : String) : Nat :=
  (db.replicas.filter fun r => r.file_id = file_id ∧ r.node_id = node_id).length

/-! ## Integrity verifier (replication_manager.py, `ReplicationManager._verify_replicas`)

The node's `GET /verify/{file_id}` endpoint is modelled by an environment
`env : address → file_id → Option checksum`: `some c` for an HTTP 200 answer
carrying checksum `c`, `none` for any non-200 answer or transport failure. -/

/-- One iteration of the `for replica in replicas` loop of
`_verify_replicas`, for a file with stored checksum `expected`. -/
def verifyReplica (env : String → String → Option String) (now : Nat)
    (expected : String) (db : DFSDatabase) (r : Replica) : DFSDatabase :=
  if r.status = "active" then
    match env r.node_address r.file_id with
    | some actual =>
        if actual = expected then
          update_replica_status db r.file_id r.node_id "active" now
        else
          update_replica_status db r.file_id r.node_id "corrupted" now
    | none => db
  else db

/-- The per-file body of `_verify_replicas`: files whose checksum is null
(or the empty string, which is also falsy in the source) are skipped. -/
def verifyFile (env : String → String → Option String) (now : Nat)
    (db : DFSDatabase) (f : FileRow) : DFSDatabase :=
  match f.checksum with
  | none => db
  | some expected =>
      if expected = "" then db
      else (get_replicas db f.file_id).foldl (verifyReplica env now expected) db

/-- `ReplicationManager._verify_replicas`: one verification pass over the
file snapshot. -/
def verify_replicas (env : String → String → Option String) (now : Nat)
    (db : DFSDatabase) : DFSDatabase :=
  db.files.foldl (verifyFile env now) db

/-- Every replica row of the pair `(pf, pn)` has status `corrupted`, and at
least one such row exists. -/
def PairCorrupted (db : DFSDatabase) (pf pn : String) : Prop :=
  (∀ r' ∈ db.replicas, r'.file_id = pf → r'.node_id = pn →
      r'.status = "corrupted")
    ∧ ∃ r' ∈ db.replicas, r'.file_id = pf ∧ r'.node_id = pn
        ∧ r'.status = "corrupted"

/-! ## Recovery queue (advanced_recovery.py) -/

/-- Class `FileRecoveryRecord`. -/
structure FileRecoveryRecord where
  file_id : String
  filename : String
  strategy : String
  priority : Nat
  attempts : Nat
  max_attempts : Nat
  last_attempt : Option Nat
  status : String
  error_message : Option String
  created_at : Nat
deriving Repr, DecidableEq

/-- `FileRecoveryRecord.__init__`. -/
def mkFileRecoveryRecord (file_id filename strategy : String) (priority now : Nat) :
    FileRecoveryRecord :=
  ⟨file_id, filename, strategy, priority, 0, 3, none, "pending", none, now⟩

/-- Stable descending insertion by `priority`; folding it over a list is the
behaviour of Python's stable `list.sort(key=lambda x: x.priority,
reverse=True)`. -/
def pyInsertDesc (x : FileRecoveryRecord) :
    List FileRecoveryRecord → List FileRecoveryRecord
  | [] => [x]
  | y :: ys =>
      if y.priority ≤ x.priority then x :: y :: ys
      else y :: pyInsertDesc x ys

/-- The stable descending-priority sort used by `add_to_recovery_queue`. -/
def pySortDesc : List FileRecoveryRecord → List FileRecoveryRecord
  | [] => []
  | x :: xs => pyInsertDesc x (pySortDesc xs)

/-- Insertion of a record after every queued record of priority ≥ its own
(used only to characterise `pySortDesc` on an already-sorted queue). -/
def insertLastDesc (x : FileRecoveryRecord) :
    List FileRecoveryRecord → List FileRecoveryRecord
  | [] => [x]
  | y :: ys =>
      if x.priority ≤ y.priority then y :: insertLastDesc x ys
      else x :: y :: ys

/-- `list.remove(x)`: drop the first occurrence of `x`, no-op when absent. -/
def removeFirst (x : FileRecoveryRecord) :
    List FileRecoveryRecord → List FileRecoveryRecord
  | [] => []
  | y :: ys => if y = x then ys else y :: removeFirst x ys

/-- `AdvancedRecoveryManager.add_to_recovery_queue`: dedupe on `file_id`,
append a fresh record, then stable-sort by priority descending. -/
def add_to_recovery_queue (q : List FileRecoveryRecord) (now : Nat)
    (file_id filename strategy : String) (priority : Nat) :
    List FileRecoveryRecord :=
  if q.any (fun r => r.file_id == file_id) then q
  else pySortDesc (q ++ [mkFileRecoveryRecord file_id filename strategy priority now])

/-- One entry of `recovery_history` (`_add_to_history`). -/
structure HistoryEntry where
  file_id : String
  filename : String
  timestamp : Nat
  success : Bool
  recovery_time : Nat
  attempts : Nat
  priority : Nat
  strategy : String
  error : Option String
deriving Repr, DecidableEq

/-- The queue and history of `AdvancedRecoveryManager`. -/
structure RQState where
  queue : List FileRecoveryRecord
  history : List HistoryEntry
deriving Repr, DecidableEq

/-- `AdvancedRecoveryManager._add_to_history` with `max_history = 100`:
append, then keep only the last 100 entries. -/
def add_to_history (st : RQState) (rec : FileRecoveryRecord)
    (now recovery_time : Nat) (success : Bool) : RQState :=
  let entry : HistoryEntry :=
    ⟨rec.file_id, rec.filename, now, success, recovery_time, rec.attempts,
     rec.priority, rec.strategy, if success then none else rec.error_message⟩
  let h := st.history ++ [entry]
  { st with history := if 100 < h.length then h.drop (h.length - 100) else h }

/-- `AdvancedRecoveryManager._mark_recovery_failed`: set the record's status
and error message, remove it from the queue, append a failure history entry.
The updated record is returned alongside, mirroring the in-place mutation of
the Python object. -/
def mark_recovery_failed (st : RQState) (rec : FileRecoveryRecord)
    (error : String) (now : Nat) : RQState × FileRecoveryRecord :=
  let rec' := { rec with status := "failed", error_message := some error }
  let st' := { st with queue := removeFirst rec st.queue }
  (add_to_history st' rec' now 0 false, rec')

/-- `AdvancedRecoveryManager._mark_recovery_successful`: set the record's
status, remove it from the queue, append a success history entry. -/
def mark_recovery_successful (st : RQState) (rec : FileRecoveryRecord)
    (now recovery_time : Nat) : RQState × FileRecoveryRecord :=
  let rec' := { rec with status := "success" }
  let st' := { st with queue := removeFirst rec st.queue }
  (add_to_history st' rec' now recovery_time true, rec')

/-- One iteration of the file loop of
`AdvancedRecoveryManager._check_corrupted_replicas`. -/
def check_corrupted_step (db : DFSDatabase) (now : Nat)
    (q : List FileRecoveryRecord) (f : FileRow) : List FileRecoveryRecord :=
  let corrupted_count :=
    ((get_replicas db f.file_id).filter fun r => r.status == "corrupted").length
  if 0 < corrupted_count then
    add_to_recovery_queue q now f.file_id f.filename "immediate" 15
  else q

/-- `AdvancedRecoveryManager._check_corrupted_replicas` (part of the
proactive health-check loop): enqueue every file that has a corrupted
replica with the immediate strategy at priority 15. -/
def check_corrupted_replicas (db : DFSDatabase) (now : Nat)
    (q : List FileRecoveryRecord) : List FileRecoveryRecord :=
  db.files.foldl (check_corrupted_step db now) q

/-! ## Recovery strategies (advanced_recovery.py)

HTTP environments:
`envDown : address → file_id → Option Bytes` models `GET /download` (`some`
for HTTP 200 with the body, `none` otherwise); `envUp : address → file_id →
Bytes → Bool` models `POST /upload` returning 200; `envCopy : source →
target → file_id → Bool` models `_copy_file_between_nodes` (download from
the source then upload to the target); `hash : Bytes → String` models
`hashlib.sha256(...).hexdigest()`. -/

/-- One iteration of the upload loop of
`AdvancedRecoveryManager._restore_from_data`, accumulating `success_count`. -/
def restore_step (envUp : String → String → Bytes → Bool) (file_id : String)
    (data : Bytes) (acc : DFSDatabase × Nat) (node : StorageNode) :
    DFSDatabase × Nat :=
  if envUp node.node_address file_id data then
    (add_replica acc.1 file_id node.node_id node.node_address "active", acc.2 + 1)
  else acc

/-- `AdvancedRecoveryManager._restore_from_data`: with fewer than 2 active
nodes fail outright; otherwise upload the bytes to the first two active
nodes, registering an active replica per HTTP 200, and succeed iff at least
2 uploads succeeded. -/
def restore_from_data (envUp : String → String → Bytes → Bool)
    (db : DFSDatabase) (now : Nat) (file_id : String) (data : Bytes) :
    DFSDatabase × Bool :=
  let scan := get_active_nodes db now 30
  if scan.2.length < 2 then (scan.1, false)
  else
    let r := (scan.2.take 2).foldl (restore_step envUp file_id data) (scan.1, 0)
    (r.1, decide (2 ≤ r.2))

/-- The `for replica in inactive_replicas` loop of
`AdvancedRecoveryManager._recover_from_backup`: download from each inactive
replica in turn; on an HTTP 200 whose SHA-256 matches the stored checksum,
restore from those bytes; otherwise (failure or mismatch) try the next. -/
def recover_loop (envDown : String → String → Option Bytes)
    (envUp : String → String → Bytes → Bool) (hash : Bytes → String)
    (db : DFSDatabase) (now : Nat) (file_id : String)
    (stored_checksum : Option String) :
    List Replica → DFSDatabase × Bool
  | [] => (db, false)
  | r :: rest =>
      match envDown r.node_address file_id with
      | some data =>
          if some (hash data) = stored_checksum then
            restore_from_data envUp db now file_id data
          else
            recover_loop envDown envUp hash db now file_id stored_checksum rest
      | none => recover_loop envDown envUp hash db now file_id stored_checksum rest

/-- `AdvancedRecoveryManager._recover_from_backup`: run the loop over the
file's replicas in status `inactive`. -/
def recover_from_backup (envDown : String → String → Option Bytes)
    (envUp : String → String → Bytes → Bool) (hash : Bytes → String)
    (db : DFSDatabase) (now : Nat) (fi : FileInfo) : DFSDatabase × Bool :=
  recover_loop envDown envUp hash db now fi.file_id fi.checksum
    (fi.replicas.filter fun r => r.status == "inactive")

/-- The first inactive-replica download that returns HTTP 200 with bytes
matching the stored checksum (the bytes `_recover_from_backup` restores). -/
def firstMatchingData (envDown : String → String → Option Bytes)
    (hash : Bytes → String) (file_id : String)
    (stored_checksum : Option String) : List Replica → Option Bytes
  | [] => none
  | r :: rest =>
      match envDown r.node_address file_id with
      | some data =>
          if some (hash data) = stored_checksum then some data
          else firstMatchingData envDown hash file_id stored_checksum rest
      | none => firstMatchingData envDown hash file_id stored_checksum rest

/-- How many of the first two active nodes answer the restore upload with
HTTP 200. -/
def restoreSuccesses (envUp : String → String → Bytes → Bool)
    (db : DFSDatabase) (now : Nat) (file_id : String) (data : Bytes) : Nat :=
  ((activeNodesList db now 30).take 2).countP
    fun n => envUp n.node_address file_id data

/-- `AdvancedRecoveryManager._create_additional_replicas`: copy from the
first active replica to enough fresh nodes; succeed iff at least one new
replica was registered. -/
def create_additional_replicas (envCopy : String → String → String → Bool)
    (db : DFSDatabase) (now : Nat) (fi : FileInfo)
    (active_replicas : List Replica) : DFSDatabase × Bool :=
  let needed := 2 - active_replicas.length
  let scan := get_active_nodes db now 30
  let existing := active_replicas.map (fun r => r.node_id)
  let available := scan.2.filter fun n => ¬ existing.contains n.node_id
  if available.length < needed then (scan.1, false)
  else
    match active_replicas with
    | [] => (scan.1, false)
    | src :: _ =>
        let r := (available.take needed).foldl
          (fun acc tn =>
            if envCopy src.node_address tn.node_address fi.file_id then
              (add_replica acc.1 fi.file_id tn.node_id tn.node_address "active",
               acc.2 + 1)
            else acc)
          (scan.1, 0)
        (r.1, decide (0 < r.2))

/-- One iteration of the `for corrupted in corrupted_replicas` loop of
`AdvancedRecoveryManager._replace_corrupted_replicas`. -/
def replace_step (envCopy : String → String → String → Bool) (file_id : String)
    (now : Nat) (source_address : String) (db : DFSDatabase) (cor : Replica) :
    DFSDatabase :=
  if envCopy source_address cor.node_address file_id then
    update_replica_status db file_id cor.node_id "active" now
  else db

/-- `AdvancedRecoveryManager._replace_corrupted_replicas`: with no active
replica to copy from return failure; otherwise copy from the first active
replica to every corrupted replica's node, flipping it back to `active` on
HTTP 200, and return `True` unconditionally at the end of the loop. -/
def replace_corrupted_replicas (envCopy : String → String → String → Bool)
    (db : DFSDatabase) (now : Nat) (fi : FileInfo)
    (corrupted_replicas : List Replica) : DFSDatabase × Bool :=
  match fi.replicas.filter (fun r => r.status == "active") with
  | [] => (db, false)
  | src :: _ =>
      (corrupted_replicas.foldl
        (replace_step envCopy fi.file_id now src.node_address) db, true)

/-! ## Replication controller (replication_manager.py, `ReplicationManager._replicate_file`) -/

/-- The `existing_node_ids` of `_replicate_file`: node ids of the file's
replicas whose status is `active` (only those). -/
def existingActiveNodeIds (replicas : List Replica) : List String :=
  (replicas.filter fun r => r.status == "active").map fun r => r.node_id

/-- The `available_nodes` of `_replicate_file`: the candidate target nodes,
the active nodes minus `existing_node_ids`. -/
def replicationCandidates (active_nodes : List StorageNode)
    (replicas : List Replica) : List StorageNode :=
  active_nodes.filter fun n => ¬ (existingActiveNodeIds replicas).contains n.node_id

/-- `ReplicationManager._replicate_file` with `min_replicas`: pick
candidates, pick an active source on a live node, copy to the first
`needed` candidates, registering an active replica per successful copy. -/
def replicate_file (envCopy : String → String → String → Bool)
    (db : DFSDatabase) (min_replicas : Nat) (file_id : String)
    (active_nodes : List StorageNode) : DFSDatabase :=
  let replicas := get_replicas db file_id
  let existing := existingActiveNodeIds replicas
  let available := replicationCandidates active_nodes replicas
  if available.isEmpty then db
  else
    match replicas.find? (fun r =>
        r.status == "active" && active_nodes.any fun n => n.node_id == r.node_id) with
    | none => db
    | some src =>
        let needed := min_replicas - existing.length
        (available.take needed).foldl
          (fun dbAcc tn =>
            if envCopy src.node_address tn.node_address file_id then
              add_replica dbAcc file_id tn.node_id tn.node_address "active"
            else dbAcc)
          db

/-! ## Attempt logic (advanced_recovery.py, `AdvancedRecoveryManager._attempt_recovery`) -/

/-- Replace the queue's copy of a record by its mutated value (the Python
object is mutated in place, so the queue sees the new field values). -/
def replaceRecord (q : List FileRecoveryRecord)
    (old new : FileRecoveryRecord) : List FileRecoveryRecord :=
  q.map fun x => if x = old then new else x

/-- The body of `_attempt_recovery` past the retry-delay guard: the
max-attempts check, the attempt bookkeeping, strategy selection and the
success / failure marking. -/
def attempt_recovery_body (envDown : String → String → Option Bytes)
    (envUp : String → String → Bytes → Bool) (hash : Bytes → String)
    (envCopy : String → String → String → Bool) (db : DFSDatabase)
    (st : RQState) (rec : FileRecoveryRecord) (now : Nat) :
    RQState × FileRecoveryRecord × DFSDatabase :=
  if rec.max_attempts ≤ rec.attempts then
    let m := mark_recovery_failed st rec "Max attempts exceeded" now
    (m.1, m.2, db)
  else
    let rec1 := { rec with attempts := rec.attempts + 1, last_attempt := some now }
    let st1 := { st with queue := replaceRecord st.queue rec rec1 }
    match get_file db rec.file_id with
    | none =>
        let m := mark_recovery_failed st1 rec1 "File not found in database" now
        (m.1, m.2, db)
    | some fi =>
        let actives := fi.replicas.filter fun r => r.status == "active"
        let corrupted := fi.replicas.filter fun r => r.status == "corrupted"
        let out :=
          if actives.length = 0 then
            recover_from_backup envDown envUp hash db now fi
          else if actives.length < 2 then
            create_additional_replicas envCopy db now fi actives
          else if 0 < corrupted.length then
            replace_corrupted_replicas envCopy db now fi corrupted
          else (db, true)
        if out.2 then
          let m := mark_recovery_successful st1 rec1 now 0
          (m.1, m.2, out.1)
        else
          let m := mark_recovery_failed st1 rec1 "Recovery operation failed" now
          (m.1, m.2, out.1)

/-- `AdvancedRecoveryManager._attempt_recovery` with
`retry_delay = 300`: skip while the last attempt is less than the retry
delay old, otherwise run the body. -/
def attempt_recovery (envDown : String → String → Option Bytes)
    (envUp : String → String → Bytes → Bool) (hash : Bytes → String)
    (envCopy : String → String → String → Bool) (db : DFSDatabase)
    (retry_delay : Nat) (st : RQState) (rec : FileRecoveryRecord) (now : Nat) :
    RQState × FileRecoveryRecord × DFSDatabase :=
  match rec.last_attempt with
  | some t =>
      if now - t < retry_delay then (st, rec, db)
      else attempt_recovery_body envDown envUp hash envCopy db st rec now
  | none => attempt_recovery_body envDown envUp hash envCopy db st rec now

/-- One selection of a record by a worker loop: run `_attempt_recovery` on
the record and rethread the returned queue state, record object and store. -/
def attempt_recovery_iter (envDown : String → String → Option Bytes)
    (envUp : String → String → Bytes → Bool) (hash : Bytes → String)
    (envCopy : String → String → String → Bool) (retry_delay : Nat)
    (s : RQState × FileRecoveryRecord × DFSDatabase) (now : Nat) :
    RQState × FileRecoveryRecord × DFSDatabase :=
  attempt_recovery envDown envUp hash envCopy s.2.2 retry_delay s.1 s.2.1 now

/-- The queue ordering invariant: priorities are non-increasing from the
front of the queue. -/
abbrev SortedDesc (q : List FileRecoveryRecord) : Prop :=
  q.Pairwise fun a b => b.priority ≤ a.priority

/-! ## Concrete states used by the counterexamples and witnesses -/

/-- A store with one active node `n1` whose heartbeat is stale, holding the
only (active) replica of file `f1`. -/
def staleNodeDb : DFSDatabase :=
  ⟨[], [⟨"f1", "n1", "http-n1", "active", none⟩],
   [⟨"n1", "http-n1", "active", 0, 0, 0⟩]⟩

/-- A store whose single file row already carries checksum `"aa"`. -/
def checksummedDb : DFSDatabase :=
  ⟨[⟨"f", "doc", 1, some "aa", 2⟩], [], []⟩

/-- File info with one active and one corrupted replica. -/
def corruptedFi : FileInfo :=
  ⟨"f", "doc", 1, some "h", 2,
   [⟨"f", "n1", "a1", "active", none⟩, ⟨"f", "n2", "a2", "corrupted", none⟩]⟩

/-- The store matching `corruptedFi`. -/
def corruptedDb : DFSDatabase :=
  ⟨[⟨"f", "doc", 1, some "h", 2⟩], corruptedFi.replicas, []⟩

/-- The coordinator state the claim about the integrity verifier observes:
the shared metadata store plus the recovery queue owned by
`AdvancedRecoveryManager`. -/
structure CoordinatorState where
  db : DFSDatabase
  queue : List FileRecoveryRecord
deriving Repr, DecidableEq

/-- One pass of `ReplicationManager._verify_replicas` at the coordinator
level: the class holds no reference to the recovery queue, so the pass can
only touch the metadata store. -/
def integrity_verifier_pass (env : String → String → Option String)
    (now : Nat) (s : CoordinatorState) : CoordinatorState :=
  { s with db := verify_replicas env now s.db }

/-- A store whose single active replica will report a wrong checksum. -/
def mismatchDb : DFSDatabase :=
  ⟨[⟨"f", "doc", 1, some "h", 2⟩], [⟨"f", "n1", "a1", "active", none⟩], []⟩

/-- File info whose only replica is inactive (a disaster case). -/
def backupFi : FileInfo :=
  ⟨"f", "doc", 1, some "h", 2, [⟨"f", "n1", "a1", "inactive", none⟩]⟩

/-- A store with two active, fresh storage nodes. -/
def twoNodeDb : DFSDatabase :=
  ⟨[], [], [⟨"n2", "a2", "active", 10, 0, 0⟩, ⟨"n3", "a3", "active", 5, 0, 0⟩]⟩

/-! ## C1 -/

/-- Claim C1 (failing input): node `n1` is 31 s stale with one active
replica.  One health-monitor tick does mark the node inactive and increment
`nodes_failed`, but the replica on the failed node keeps status `active`,
because `_mark_node_replicas_inactive` only logs — contradicting its own
docstring and the claim. -/
theorem c1_stale_node_tick_leaves_replica_active :
    ((check_node_health staleNodeDb ⟨0, 0⟩ 31).1.nodes.map StorageNode.status
        = ["inactive"])
      ∧ (check_node_health staleNodeDb ⟨0, 0⟩ 31).2.nodes_failed = 1
      ∧ ((check_node_health staleNodeDb ⟨0, 0⟩ 31).1.replicas.map Replica.status
        = ["active"]) := by
  decide

/-! ## C2 -/

/-- Claim C2 (counterexample): `add_replica` is a plain SQL INSERT with no
uniqueness constraint, so calling it twice with the same
`(file_id, node_id)` leaves two replica rows, not one. -/
theorem c2_duplicate_add_replica_two_rows :
    replicaPairCount
        (add_replica (add_replica ⟨[], [], []⟩ "f" "n" "a1" "pending")
          "f" "n" "a2" "active") "f" "n" = 2
      ∧ replicaPairCount
        (add_replica (add_replica ⟨[], [], []⟩ "f" "n" "a1" "pending")
          "f" "n" "a2" "active") "f" "n" ≠ 1 := by
  decide

/-- Claim C2 (amended): calling `add_replica` twice with the same
`(file_id, node_id)` appends a row each time: the number of replica rows
for that pair grows by exactly two. -/
theorem c2_add_replica_always_inserts (db : DFSDatabase)
    (f n a s a' s' : String) :
    replicaPairCount (add_replica (add_replica db f n a s) f n a' s') f n
      = replicaPairCount db f n + 2 := by
  simp [replicaPairCount, add_replica, List.filter_append]

/-! ## C3 -/

/-- Claim C3 (counterexample): the stored checksum of file `f` is the
non-null `"aa"`, yet `update_file_checksum` replaces it with `"bb"` — the
UPDATE is unconditional, it does not protect a non-null checksum. -/
theorem c3_update_checksum_overwrites :
    checksummedDb.files.map FileRow.checksum = [some "aa"]
      ∧ ((update_file_checksum checksummedDb "f" "bb").files.map FileRow.checksum
        = [some "bb"])
      ∧ ((update_file_checksum checksummedDb "f" "bb").files.map FileRow.checksum
        ≠ checksummedDb.files.map FileRow.checksum) := by
  decide

/-- Claim C3 (amended): `update_file_checksum db id c` unconditionally sets
the checksum of every file row whose id matches to `some c` (overwriting a
non-null value), and leaves every other row unchanged. -/
theorem c3_update_checksum_unconditional (db : DFSDatabase) (id c : String)
    (f' : FileRow) (hf : f' ∈ (update_file_checksum db id c).files) :
    (f'.file_id = id → f'.checksum = some c)
      ∧ (f'.file_id ≠ id → f' ∈ db.files) := by
  simp only [update_file_checksum, List.mem_map] at hf
  obtain ⟨g, hg, rfl⟩ := hf
  by_cases h : g.file_id = id
  · simp [h]
  · simp [h, hg]

/-- Claim C3 (witness for the amended theorem). -/
theorem c3_update_checksum_unconditional_witness :
    ((FileRow.mk "f" "doc" 1 (some "bb") 2).file_id = "f" →
        (FileRow.mk "f" "doc" 1 (some "bb") 2).checksum = some "bb")
      ∧ ((FileRow.mk "f" "doc" 1 (some "bb") 2).file_id ≠ "f" →
        FileRow.mk "f" "doc" 1 (some "bb") 2 ∈ checksummedDb.files) :=
  c3_update_checksum_unconditional checksummedDb "f" "bb"
    (FileRow.mk "f" "doc" 1 (some "bb") 2) (by decide)

/-! ## C6 -/

/-- Claim C6 (counterexample): one corrupted replica, an active source
exists, and every copy fails (`envCopy` constantly false): zero replicas
are replaced — the store is returned unchanged — yet the strategy reports
success. -/
theorem c6_rebuild_reports_success_with_zero_replacements :
    ((replace_corrupted_replicas (fun _ _ _ => false) corruptedDb 0 corruptedFi
        [⟨"f", "n2", "a2", "corrupted", none⟩]).2 = true)
      ∧ ((replace_corrupted_replicas (fun _ _ _ => false) corruptedDb 0 corruptedFi
        [⟨"f", "n2", "a2", "corrupted", none⟩]).1 = corruptedDb) := by
  decide

/-- Claim C6 (amended): the rebuild-corrupted strategy reports success iff
the file has at least one replica in status `active` to copy from; the
individual replacements are best-effort and do not influence the reported
result. -/
theorem c6_rebuild_success_iff_active_source
    (envCopy : String → String → String → Bool) (db : DFSDatabase) (now : Nat)
    (fi : FileInfo) (corrupted_replicas : List Replica) :
    (replace_corrupted_replicas envCopy db now fi corrupted_replicas).2 = true
      ↔ fi.replicas.filter (fun r => r.status == "active") ≠ [] := by
  unfold replace_corrupted_replicas
  cases h : fi.replicas.filter (fun r => r.status == "active") with
  | nil => simp
  | cons a l => simp

/-! ## C8 -/

/-- Claim C8 (counterexample): node `n2` holds a `pending` replica of the
file, yet it is among the candidate target nodes — `_replicate_file`
excludes only nodes whose replica status is `active`. -/
theorem c8_pending_replica_node_is_candidate :
    (⟨"n2", "a2", "active", 0, 0, 0⟩ : StorageNode) ∈
        replicationCandidates [⟨"n2", "a2", "active", 0, 0, 0⟩]
          [⟨"f", "n1", "a1", "active", none⟩, ⟨"f", "n2", "a2", "pending", none⟩]
      ∧ (⟨"f", "n2", "a2", "pending", none⟩ : Replica) ∈
        [⟨"f", "n1", "a1", "active", none⟩,
         (⟨"f", "n2", "a2", "pending", none⟩ : Replica)] := by
  decide

/-- Claim C8 (amended): the candidate target set excludes exactly the nodes
that already hold a replica of the file in status `active`; nodes whose
replica is `pending` or `corrupted` remain candidates. -/
theorem c8_candidates_exclude_only_active_replica_nodes
    (active_nodes : List StorageNode) (replicas : List Replica)
    (n : StorageNode) :
    n ∈ replicationCandidates active_nodes replicas
      ↔ (n ∈ active_nodes ∧
          ∀ r ∈ replicas, r.status = "active" → r.node_id ≠ n.node_id) := by
  have hmem : ∀ nid : String, (existingActiveNodeIds replicas).contains nid = true ↔
      ∃ r ∈ replicas, r.status = "active" ∧ r.node_id = nid := by
    intro nid
    rw [List.elem_iff]
    simp only [existingActiveNodeIds, List.mem_map, List.mem_filter, beq_iff_eq]
    constructor
    · rintro ⟨r, ⟨hr, hs⟩, hid⟩
      exact ⟨r, hr, hs, hid⟩
    · rintro ⟨r, hr, hs, hid⟩
      exact ⟨r, ⟨hr, hs⟩, hid⟩
  constructor
  · intro h
    rcases List.mem_filter.mp h with ⟨hn, hb⟩
    simp only [decide_eq_true_eq] at hb
    refine ⟨hn, fun r hr hs hid => ?_⟩
    exact hb ((hmem n.node_id).mpr ⟨r, hr, hs, hid⟩)
  · rintro ⟨hn, hno⟩
    refine List.mem_filter.mpr ⟨hn, ?_⟩
    simp only [decide_eq_true_eq]
    intro hc
    rcases (hmem n.node_id).mp hc with ⟨r, hr, hs, hid⟩
    exact hno r hr hs hid

/-! ## C10 -/

/-- Claim C10: `delete_file` removes the file row and every replica row of
the file, and returns `true` iff at least one replica row was deleted — in
particular deleting a file that has zero replicas returns `false`. -/
theorem c10_delete_file_return_counts_replicas (db : DFSDatabase)
    (fid : String) :
    ((delete_file db fid).1.files.filter (fun f => f.file_id == fid) = [])
      ∧ ((delete_file db fid).1.replicas.filter (fun r => r.file_id == fid) = [])
      ∧ ((delete_file db fid).2 = true
        ↔ db.replicas.filter (fun r => r.file_id = fid) ≠ []) := by
  refine ⟨?_, ?_, ?_⟩
  · rw [List.filter_eq_nil_iff]
    intro a ha
    simp only [delete_file, List.mem_filter, decide_eq_true_eq] at ha
    simp [ha.2]
  · rw [List.filter_eq_nil_iff]
    intro a ha
    simp only [delete_file, List.mem_filter, decide_eq_true_eq] at ha
    simp [ha.2]
  · simp only [delete_file, decide_eq_true_eq]
    rw [List.length_pos]

/-! ## C9: ordering of the recovery queue -/

theorem mem_pyInsertDesc (x a : FileRecoveryRecord)
    (l : List FileRecoveryRecord) :
    a ∈ pyInsertDesc x l ↔ a = x ∨ a ∈ l := by
  induction l with
  | nil => simp [pyInsertDesc]
  | cons y ys ih =>
      by_cases h : y.priority ≤ x.priority <;>
        simp [pyInsertDesc, h, ih] <;> tauto

theorem mem_insertLastDesc (x a : FileRecoveryRecord)
    (l : List FileRecoveryRecord) :
    a ∈ insertLastDesc x l ↔ a = x ∨ a ∈ l := by
  induction l with
  | nil => simp [insertLastDesc]
  | cons y ys ih =>
      by_cases h : x.priority ≤ y.priority <;>
        simp [insertLastDesc, h, ih] <;> tauto

theorem pyInsertDesc_of_le (h : FileRecoveryRecord)
    (m : List FileRecoveryRecord) (hm : ∀ y ∈ m, y.priority ≤ h.priority) :
    pyInsertDesc h m = h :: m := by
  cases m with
  | nil => rfl
  | cons y ys =>
      have := hm y (by simp)
      simp [pyInsertDesc, this]

theorem insertLastDesc_of_lt (x : FileRecoveryRecord)
    (t : List FileRecoveryRecord) (ht : ∀ y ∈ t, y.priority < x.priority) :
    insertLastDesc x t = x :: t := by
  cases t with
  | nil => rfl
  | cons y ys =>
      have := ht y (by simp)
      simp [insertLastDesc, not_le.mpr this]

/-- Stability of the source's `sort(key=priority, reverse=True)` on an
already-sorted queue with one appended record: the new record lands after
every queued record of priority ≥ its own, and the existing records keep
their relative order. -/
theorem pySortDesc_append_singleton (q : List FileRecoveryRecord)
    (x : FileRecoveryRecord) (hq : SortedDesc q) :
    pySortDesc (q ++ [x]) = insertLastDesc x q := by
  induction q with
  | nil => rfl
  | cons h t ih =>
      rcases List.pairwise_cons.mp hq with ⟨hh, ht⟩
      show pyInsertDesc h (pySortDesc (t ++ [x])) = insertLastDesc x (h :: t)
      rw [ih ht]
      by_cases hxh : x.priority ≤ h.priority
      · rw [pyInsertDesc_of_le h (insertLastDesc x t) ?_]
        · simp [insertLastDesc, hxh]
        · intro y hy
          rcases (mem_insertLastDesc x y t).mp hy with rfl | hyt
          · exact hxh
          · exact hh y hyt
      · have hlt : ∀ y ∈ t, y.priority < x.priority :=
          fun y hy => lt_of_le_of_lt (hh y hy) (not_le.mp hxh)
        rw [insertLastDesc_of_lt x t hlt]
        show (if x.priority ≤ h.priority then h :: x :: t
              else x :: pyInsertDesc h t) = insertLastDesc x (h :: t)
        rw [if_neg hxh, pyInsertDesc_of_le h t hh]
        simp [insertLastDesc, hxh]

theorem sortedDesc_insertLastDesc (x : FileRecoveryRecord)
    (q : List FileRecoveryRecord) (hq : SortedDesc q) :
    SortedDesc (insertLastDesc x q) := by
  induction q with
  | nil => simp [insertLastDesc, SortedDesc]
  | cons h t ih =>
      rcases List.pairwise_cons.mp hq with ⟨hh, ht⟩
      by_cases hxh : x.priority ≤ h.priority
      · show SortedDesc (if x.priority ≤ h.priority then h :: insertLastDesc x t
            else x :: h :: t)
        rw [if_pos hxh]
        refine List.pairwise_cons.mpr ⟨?_, ih ht⟩
        intro y hy
        rcases (mem_insertLastDesc x y t).mp hy with rfl | hyt
        · exact hxh
        · exact hh y hyt
      · show SortedDesc (if x.priority ≤ h.priority then h :: insertLastDesc x t
            else x :: h :: t)
        rw [if_neg hxh]
        refine List.pairwise_cons.mpr ⟨?_, hq⟩
        intro y hy
        rcases List.mem_cons.mp hy with rfl | hyt
        · exact le_of_lt (not_le.mp hxh)
        · exact le_trans (hh y hyt) (le_of_lt (not_le.mp hxh))

theorem removeFirst_sublist (x : FileRecoveryRecord) :
    ∀ l : List FileRecoveryRecord, List.Sublist (removeFirst x l) l := by
  intro l
  induction l with
  | nil => simp [removeFirst]
  | cons y ys ih =>
      by_cases h : y = x
      · simp only [removeFirst, if_pos h]
        exact List.sublist_cons_self y ys
      · simp only [removeFirst, if_neg h]
        exact List.Sublist.cons₂ y ih

theorem sortedDesc_removeFirst (x : FileRecoveryRecord)
    (q : List FileRecoveryRecord) (hq : SortedDesc q) :
    SortedDesc (removeFirst x q) :=
  hq.sublist (removeFirst_sublist x q)

/-- Claim C9: after every queue operation the recovery queue is sorted by
priority in descending order; an enqueue of a record not already present
places it after every queued record of priority ≥ its own (so equal
priorities stay in insertion order, older first, and the existing records
keep their relative order), and the removals performed on recovery success
and on recovery failure preserve the descending order. -/
theorem c9_queue_sorted_desc_after_every_operation
    (q : List FileRecoveryRecord) (now : Nat) (fid fn strat : String)
    (prio : Nat) (st : RQState) (rec : FileRecoveryRecord) (err : String)
    (t rt : Nat) (hq : SortedDesc q) (hst : SortedDesc st.queue) :
    SortedDesc (add_to_recovery_queue q now fid fn strat prio)
      ∧ (q.any (fun r => r.file_id == fid) = false →
          add_to_recovery_queue q now fid fn strat prio
            = insertLastDesc (mkFileRecoveryRecord fid fn strat prio now) q)
      ∧ SortedDesc ((mark_recovery_successful st rec t rt).1.queue)
      ∧ SortedDesc ((mark_recovery_failed st rec err t).1.queue) := by
  refine ⟨?_, ?_, ?_, ?_⟩
  · unfold add_to_recovery_queue
    by_cases hdup : q.any (fun r => r.file_id == fid) = true
    · rw [if_pos hdup]
      exact hq
    · rw [if_neg hdup,
        pySortDesc_append_singleton q (mkFileRecoveryRecord fid fn strat prio now) hq]
      exact sortedDesc_insertLastDesc _ q hq
  · intro hdup
    unfold add_to_recovery_queue
    rw [if_neg (by simp [hdup]),
      pySortDesc_append_singleton q (mkFileRecoveryRecord fid fn strat prio now) hq]
  · exact sortedDesc_removeFirst rec st.queue hst
  · exact sortedDesc_removeFirst rec st.queue hst

/-- Claim C9 (witness): a concrete sorted queue, an enqueue at priority 15
and the removals on success and failure. -/
theorem c9_queue_sorted_witness :
    SortedDesc (add_to_recovery_queue
        [mkFileRecoveryRecord "a" "a" "priority" 20 0,
         mkFileRecoveryRecord "b" "b" "priority" 10 1] 2 "c" "c" "immediate" 15)
      ∧ (([mkFileRecoveryRecord "a" "a" "priority" 20 0,
           mkFileRecoveryRecord "b" "b" "priority" 10 1].any
            (fun r => r.file_id == "c") = false) →
          add_to_recovery_queue
              [mkFileRecoveryRecord "a" "a" "priority" 20 0,
               mkFileRecoveryRecord "b" "b" "priority" 10 1] 2 "c" "c" "immediate" 15
            = insertLastDesc (mkFileRecoveryRecord "c" "c" "immediate" 15 2)
                [mkFileRecoveryRecord "a" "a" "priority" 20 0,
                 mkFileRecoveryRecord "b" "b" "priority" 10 1])
      ∧ SortedDesc ((mark_recovery_successful
          ⟨[mkFileRecoveryRecord "a" "a" "priority" 20 0,
            mkFileRecoveryRecord "b" "b" "priority" 10 1], []⟩
          (mkFileRecoveryRecord "a" "a" "priority" 20 0) 3 1).1.queue)
      ∧ SortedDesc ((mark_recovery_failed
          ⟨[mkFileRecoveryRecord "a" "a" "priority" 20 0,
            mkFileRecoveryRecord "b" "b" "priority" 10 1], []⟩
          (mkFileRecoveryRecord "a" "a" "priority" 20 0) "boom" 3).1.queue) :=
  c9_queue_sorted_desc_after_every_operation
    [mkFileRecoveryRecord "a" "a" "priority" 20 0,
     mkFileRecoveryRecord "b" "b" "priority" 10 1] 2 "c" "c" "immediate" 15
    ⟨[mkFileRecoveryRecord "a" "a" "priority" 20 0,
      mkFileRecoveryRecord "b" "b" "priority" 10 1], []⟩
    (mkFileRecoveryRecord "a" "a" "priority" 20 0) "boom" 3 1
    (by decide) (by decide)

/-! ## C5: disaster recovery -/

theorem restore_fold_count (envUp : String → String → Bytes → Bool)
    (fid : String) (data : Bytes) :
    ∀ (ns : List StorageNode) (db0 : DFSDatabase) (c0 : Nat),
      (ns.foldl (restore_step envUp fid data) (db0, c0)).2
        = c0 + ns.countP (fun n => envUp n.node_address fid data) := by
  intro ns
  induction ns with
  | nil => simp
  | cons n ns' ih =>
      intro db0 c0
      cases h : envUp n.node_address fid data
      · simp [restore_step, h, List.countP_cons, ih]
      · simp [restore_step, h, List.countP_cons, ih]
        omega

theorem restore_from_data_success_iff (envUp : String → String → Bytes → Bool)
    (db : DFSDatabase) (now : Nat) (fid : String) (data : Bytes) :
    (restore_from_data envUp db now fid data).2 = true
      ↔ 2 ≤ restoreSuccesses envUp db now fid data := by
  unfold restore_from_data restoreSuccesses activeNodesList
  by_cases h : (get_active_nodes db now 30).2.length < 2
  · simp only [if_pos h]
    constructor
    · intro hfalse
      exact absurd hfalse (by simp)
    · intro h2
      have hle : ((get_active_nodes db now 30).2.take 2).countP
          (fun n => envUp n.node_address fid data)
          ≤ ((get_active_nodes db now 30).2.take 2).length :=
        List.countP_le_length _
      have : ((get_active_nodes db now 30).2.take 2).length
          ≤ (get_active_nodes db now 30).2.length := by
        simp [List.length_take]
      omega
  · simp only [if_neg h, restore_fold_count, decide_eq_true_eq]
    omega

theorem recover_loop_success_iff (envDown : String → String → Option Bytes)
    (envUp : String → String → Bytes → Bool) (hash : Bytes → String)
    (db : DFSDatabase) (now : Nat) (fid : String) (stored : Option String) :
    ∀ rs : List Replica,
      (recover_loop envDown envUp hash db now fid stored rs).2 = true
        ↔ ∃ data, firstMatchingData envDown hash fid stored rs = some data
            ∧ 2 ≤ restoreSuccesses envUp db now fid data := by
  intro rs
  induction rs with
  | nil => simp [recover_loop, firstMatchingData]
  | cons r rest ih =>
      cases h : envDown r.node_address fid with
      | none => simpa [recover_loop, firstMatchingData, h] using ih
      | some data =>
          by_cases hm : some (hash data) = stored
          · simp only [recover_loop, firstMatchingData, h, if_pos hm]
            rw [restore_from_data_success_iff]
            constructor
            · intro h2
              exact ⟨data, rfl, h2⟩
            · rintro ⟨d, hd, h2⟩
              cases Option.some.inj hd
              exact h2
          · simpa [recover_loop, firstMatchingData, h, hm] using ih

theorem firstMatchingData_isSome_iff (envDown : String → String → Option Bytes)
    (hash : Bytes → String) (fid : String) (stored : Option String) :
    ∀ rs : List Replica,
      (∃ data, firstMatchingData envDown hash fid stored rs = some data)
        ↔ ∃ r ∈ rs, ∃ data, envDown r.node_address fid = some data
            ∧ some (hash data) = stored := by
  intro rs
  induction rs with
  | nil => simp [firstMatchingData]
  | cons r rest ih =>
      cases h : envDown r.node_address fid with
      | none =>
          simp only [firstMatchingData, h, List.mem_cons]
          rw [ih]
          constructor
          · rintro ⟨r', hr', hd⟩
            exact ⟨r', Or.inr hr', hd⟩
          · rintro ⟨r', hr' | hr', hd⟩
            · rcases hd with ⟨d, hd, _⟩
              rw [hr'] at hd
              rw [hd] at h
              cases h
            · exact ⟨r', hr', hd⟩
      | some data =>
          by_cases hm : some (hash data) = stored
          · simp only [firstMatchingData, h, if_pos hm, List.mem_cons]
            constructor
            · intro _
              exact ⟨r, Or.inl rfl, data, h, hm⟩
            · intro _
              exact ⟨data, rfl⟩
          · simp only [firstMatchingData, h, if_neg hm, List.mem_cons]
            rw [ih]
            constructor
            · rintro ⟨r', hr', hd⟩
              exact ⟨r', Or.inr hr', hd⟩
            · rintro ⟨r', hr' | hr', hd⟩
              · rcases hd with ⟨d, hd, hmd⟩
                rw [hr'] at hd
                rw [h] at hd
                cases Option.some.inj hd
                exact absurd hmd hm
              · exact ⟨r', hr', hd⟩

/-- Claim C5: disaster recovery succeeds iff some inactive replica serves
bytes whose hash equals the file's stored checksum — equivalently, the loop
finds a first matching download — and at least two of the restore uploads
to the (first two) active nodes return HTTP 200; a downloaded blob whose
hash mismatches the stored checksum only disqualifies that replica, the
loop continuing with the remaining inactive replicas. -/
theorem c5_disaster_recovery_success_iff
    (envDown : String → String → Option Bytes)
    (envUp : String → String → Bytes → Bool) (hash : Bytes → String)
    (db : DFSDatabase) (now : Nat) (fi : FileInfo) :
    ((recover_from_backup envDown envUp hash db now fi).2 = true
      ↔ ∃ data, firstMatchingData envDown hash fi.file_id fi.checksum
            (fi.replicas.filter fun r => r.status == "inactive") = some data
          ∧ 2 ≤ restoreSuccesses envUp db now fi.file_id data)
    ∧ ((∃ data, firstMatchingData envDown hash fi.file_id fi.checksum
          (fi.replicas.filter fun r => r.status == "inactive") = some data)
        ↔ ∃ r ∈ fi.replicas.filter (fun r => r.status == "inactive"),
            ∃ data, envDown r.node_address fi.file_id = some data
              ∧ some (hash data) = fi.checksum)
    ∧ (∀ (r : Replica) (rest : List Replica) (data : Bytes),
        envDown r.node_address fi.file_id = some data →
        some (hash data) ≠ fi.checksum →
        recover_loop envDown envUp hash db now fi.file_id fi.checksum (r :: rest)
          = recover_loop envDown envUp hash db now fi.file_id fi.checksum rest) := by
  refine ⟨?_, ?_, ?_⟩
  · unfold recover_from_backup
    exact recover_loop_success_iff envDown envUp hash db now fi.file_id fi.checksum _
  · exact firstMatchingData_isSome_iff envDown hash fi.file_id fi.checksum _
  · intro r rest data hd hm
    simp [recover_loop, hd, hm]

/-- Claim C5 (witness): the inactive replica on `a1` serves bytes hashing
to the stored checksum and both active nodes accept the restore upload, so
disaster recovery reports success. -/
theorem c5_disaster_recovery_witness :
    (recover_from_backup
        (fun a f => if a = "a1" ∧ f = "f" then some [1] else none)
        (fun _ _ _ => true) (fun _ => "h") twoNodeDb 0 backupFi).2 = true :=
  (c5_disaster_recovery_success_iff
      (fun a f => if a = "a1" ∧ f = "f" then some [1] else none)
      (fun _ _ _ => true) (fun _ => "h") twoNodeDb 0 backupFi).1.mpr
    ⟨[1], by decide, by decide⟩

/-! ## C7: retry delay and attempt exhaustion -/

theorem add_to_history_getLast (st : RQState) (rec : FileRecoveryRecord)
    (now rt : Nat) (success : Bool) :
    (add_to_history st rec now rt success).history.getLast?
      = some ⟨rec.file_id, rec.filename, now, success, rt, rec.attempts,
          rec.priority, rec.strategy,
          if success then none else rec.error_message⟩ := by
  unfold add_to_history
  by_cases h : 100 < (st.history ++
      [(⟨rec.file_id, rec.filename, now, success, rt, rec.attempts,
        rec.priority, rec.strategy,
        if success then none else rec.error_message⟩ : HistoryEntry)]).length
  · simp only [if_pos h]
    rw [List.drop_append_of_le_length (by
      simp only [List.length_append, List.length_cons, List.length_nil] at h ⊢
      omega)]
    exact List.getLast?_concat _
  · simp only [if_neg h]
    exact List.getLast?_concat _

theorem attempt_recovery_exhausted (envDown : String → String → Option Bytes)
    (envUp : String → String → Bytes → Bool) (hash : Bytes → String)
    (envCopy : String → String → String → Bool) (db : DFSDatabase)
    (st : RQState) (rec : FileRecoveryRecord) (now : Nat)
    (hla : rec.last_attempt = none ∨ ∃ t, rec.last_attempt = some t ∧ 300 ≤ now - t)
    (hmax : rec.max_attempts ≤ rec.attempts) :
    attempt_recovery envDown envUp hash envCopy db 300 st rec now
      = ((mark_recovery_failed st rec "Max attempts exceeded" now).1,
         (mark_recovery_failed st rec "Max attempts exceeded" now).2, db) := by
  have hbody : attempt_recovery_body envDown envUp hash envCopy db st rec now
      = ((mark_recovery_failed st rec "Max attempts exceeded" now).1,
         (mark_recovery_failed st rec "Max attempts exceeded" now).2, db) := by
    unfold attempt_recovery_body
    rw [if_pos hmax]
  rcases hla with h | ⟨t, h, hge⟩
  · unfold attempt_recovery
    rw [h]
    exact hbody
  · unfold attempt_recovery
    rw [h]
    simp only [Nat.not_lt.mpr hge, if_neg (Nat.not_lt.mpr hge)]
    exact hbody

theorem attempt_recovery_notfound (envDown : String → String → Option Bytes)
    (envUp : String → String → Bytes → Bool) (hash : Bytes → String)
    (envCopy : String → String → String → Bool) (db : DFSDatabase)
    (st : RQState) (rec : FileRecoveryRecord) (now : Nat)
    (hla : rec.last_attempt = none ∨ ∃ t, rec.last_attempt = some t ∧ 300 ≤ now - t)
    (hatt : rec.attempts < rec.max_attempts)
    (hnf : get_file db rec.file_id = none) :
    ((attempt_recovery envDown envUp hash envCopy db 300 st rec now).2.1
        = FileRecoveryRecord.mk rec.file_id rec.filename rec.strategy
            rec.priority (rec.attempts + 1) rec.max_attempts (some now)
            "failed" (some "File not found in database") rec.created_at)
      ∧ (attempt_recovery envDown envUp hash envCopy db 300 st rec now).2.2 = db := by
  have hbody : (attempt_recovery_body envDown envUp hash envCopy db st rec now).2.1
        = FileRecoveryRecord.mk rec.file_id rec.filename rec.strategy
            rec.priority (rec.attempts + 1) rec.max_attempts (some now)
            "failed" (some "File not found in database") rec.created_at
      ∧ (attempt_recovery_body envDown envUp hash envCopy db st rec now).2.2 = db := by
    unfold attempt_recovery_body
    rw [if_neg (Nat.not_le.mpr hatt)]
    simp [hnf, mark_recovery_failed]
  rcases hla with h | ⟨t, h, hge⟩
  · unfold attempt_recovery
    rw [h]
    exact hbody
  · unfold attempt_recovery
    rw [h]
    simp only [if_neg (Nat.not_lt.mpr hge)]
    exact hbody

/-- Claim C7: (i) while the last attempt is less than 300 s old the attempt
returns with the record, the queue and the store unchanged; (ii) otherwise,
when `attempts ≥ max_attempts` the record is removed from the queue, marked
failed with error message "Max attempts exceeded", a matching failure entry
is appended to the history, and the store is returned untouched (no repair
strategy runs); (iii) hence a record whose first three selections — spaced
at least 300 s apart — all fail (here: the file is absent from the store)
is marked failed with "Max attempts exceeded" on its fourth selection, its
attempt counter stopping at 3. -/
theorem c7_attempt_retry_delay_and_max_attempts
    (envDown : String → String → Option Bytes)
    (envUp : String → String → Bytes → Bool) (hash : Bytes → String)
    (envCopy : String → String → String → Bool) :
    (∀ (db : DFSDatabase) (st : RQState) (rec : FileRecoveryRecord)
        (now t : Nat), rec.last_attempt = some t → now - t < 300 →
        attempt_recovery envDown envUp hash envCopy db 300 st rec now
          = (st, rec, db))
    ∧ (∀ (db : DFSDatabase) (st : RQState) (rec : FileRecoveryRecord)
        (now : Nat),
        (rec.last_attempt = none ∨
          ∃ t, rec.last_attempt = some t ∧ 300 ≤ now - t) →
        rec.max_attempts ≤ rec.attempts →
        (attempt_recovery envDown envUp hash envCopy db 300 st rec now).1.queue
            = removeFirst rec st.queue
          ∧ (attempt_recovery envDown envUp hash envCopy db 300 st rec now).2.1
            = { rec with status := "failed",
                         error_message := some "Max attempts exceeded" }
          ∧ (attempt_recovery envDown envUp hash envCopy db 300 st rec now).2.2
            = db
          ∧ (attempt_recovery envDown envUp hash envCopy db 300
              st rec now).1.history.getLast?
            = some ⟨rec.file_id, rec.filename, now, false, 0, rec.attempts,
                rec.priority, rec.strategy, some "Max attempts exceeded"⟩)
    ∧ (∀ (db : DFSDatabase) (st : RQState) (rec0 : FileRecoveryRecord)
        (t1 t2 t3 t4 : Nat),
        rec0.attempts = 0 → rec0.max_attempts = 3 → rec0.last_attempt = none →
        get_file db rec0.file_id = none →
        300 ≤ t2 - t1 → 300 ≤ t3 - t2 → 300 ≤ t4 - t3 →
        ((List.foldl (attempt_recovery_iter envDown envUp hash envCopy 300)
            (st, rec0, db) [t1, t2, t3, t4]).2.1.status = "failed"
          ∧ (List.foldl (attempt_recovery_iter envDown envUp hash envCopy 300)
              (st, rec0, db) [t1, t2, t3, t4]).2.1.error_message
            = some "Max attempts exceeded"
          ∧ (List.foldl (attempt_recovery_iter envDown envUp hash envCopy 300)
              (st, rec0, db) [t1, t2, t3, t4]).2.1.attempts = 3)) := by
  refine ⟨?_, ?_, ?_⟩
  · intro db st rec now t h hlt
    unfold attempt_recovery
    rw [h]
    exact if_pos hlt
  · intro db st rec now hla hmax
    rw [attempt_recovery_exhausted envDown envUp hash envCopy db st rec now hla hmax]
    refine ⟨rfl, rfl, rfl, ?_⟩
    simp only [mark_recovery_failed]
    exact add_to_history_getLast _ _ now 0 false
  · intro db st rec0 t1 t2 t3 t4 h0att h0max h0la hnf hg2 hg3 hg4
    obtain ⟨fid, fn, strat, prio, att, maxa, la, stat, err, cr⟩ := rec0
    simp only at h0att h0max h0la hnf
    subst h0att h0max h0la
    simp only [List.foldl_cons, List.foldl_nil, attempt_recovery_iter]
    have h1 := attempt_recovery_notfound envDown envUp hash envCopy db st
      (FileRecoveryRecord.mk fid fn strat prio 0 3 none stat err cr) t1
      (Or.inl rfl) (by simp) hnf
    rw [h1.1, h1.2]
    have h2 := attempt_recovery_notfound envDown envUp hash envCopy db
      (attempt_recovery envDown envUp hash envCopy db 300 st
        (FileRecoveryRecord.mk fid fn strat prio 0 3 none stat err cr) t1).1
      (FileRecoveryRecord.mk fid fn strat prio (0 + 1) 3 (some t1) "failed"
        (some "File not found in database") cr) t2
      (Or.inr ⟨t1, rfl, hg2⟩) (by simp) hnf
    rw [h2.1, h2.2]
    have h3 := attempt_recovery_notfound envDown envUp hash envCopy db
      (attempt_recovery envDown envUp hash envCopy db 300
        (attempt_recovery envDown envUp hash envCopy db 300 st
          (FileRecoveryRecord.mk fid fn strat prio 0 3 none stat err cr) t1).1
        (FileRecoveryRecord.mk fid fn strat prio (0 + 1) 3 (some t1) "failed"
          (some "File not found in database") cr) t2).1
      (FileRecoveryRecord.mk fid fn strat prio (0 + 1 + 1) 3 (some t2) "failed"
        (some "File not found in database") cr) t3
      (Or.inr ⟨t2, rfl, hg3⟩) (by simp) hnf
    rw [h3.1, h3.2]
    rw [attempt_recovery_exhausted envDown envUp hash envCopy db _
      (FileRecoveryRecord.mk fid fn strat prio (0 + 1 + 1 + 1) 3 (some t3)
        "failed" (some "File not found in database") cr) t4
      (Or.inr ⟨t3, rfl, hg4⟩) (by simp)]
    simp [mark_recovery_failed]

/-- Claim C7 (witness): a concrete record selected four times at 300 s
intervals against a store that does not contain its file. -/
theorem c7_attempt_retry_delay_and_max_attempts_witness :
    ((mkFileRecoveryRecord "g" "g" "immediate" 15 0).last_attempt = none →
      get_file ⟨[], [], []⟩ (mkFileRecoveryRecord "g" "g" "immediate" 15 0).file_id
          = none →
      True) ∧
    ((List.foldl
        (attempt_recovery_iter (fun _ _ => none) (fun _ _ _ => false)
          (fun _ => "h") (fun _ _ _ => false) 300)
        (⟨[mkFileRecoveryRecord "g" "g" "immediate" 15 0], []⟩,
          mkFileRecoveryRecord "g" "g" "immediate" 15 0,
          (⟨[], [], []⟩ : DFSDatabase)) [0, 300, 600, 900]).2.1.status = "failed"
      ∧ (List.foldl
          (attempt_recovery_iter (fun _ _ => none) (fun _ _ _ => false)
            (fun _ => "h") (fun _ _ _ => false) 300)
          (⟨[mkFileRecoveryRecord "g" "g" "immediate" 15 0], []⟩,
            mkFileRecoveryRecord "g" "g" "immediate" 15 0,
            (⟨[], [], []⟩ : DFSDatabase)) [0, 300, 600, 900]).2.1.error_message
        = some "Max attempts exceeded"
      ∧ (List.foldl
          (attempt_recovery_iter (fun _ _ => none) (fun _ _ _ => false)
            (fun _ => "h") (fun _ _ _ => false) 300)
          (⟨[mkFileRecoveryRecord "g" "g" "immediate" 15 0], []⟩,
            mkFileRecoveryRecord "g" "g" "immediate" 15 0,
            (⟨[], [], []⟩ : DFSDatabase)) [0, 300, 600, 900]).2.1.attempts = 3) :=
  ⟨fun _ _ => trivial,
   (c7_attempt_retry_delay_and_max_attempts (fun _ _ => none)
      (fun _ _ _ => false) (fun _ => "h") (fun _ _ _ => false)).2.2
    ⟨[], [], []⟩ ⟨[mkFileRecoveryRecord "g" "g" "immediate" 15 0], []⟩
    (mkFileRecoveryRecord "g" "g" "immediate" 15 0) 0 300 600 900
    rfl rfl rfl (by decide) (by decide) (by decide) (by decide)⟩

/-! ## C4: integrity verifier and the corruption enqueue -/

theorem filter_map_of_pres (g : Replica → Replica) (p : Replica → Bool)
    (hp : ∀ r, p (g r) = p r) (hid : ∀ r, p r = true → g r = r) :
    ∀ l : List Replica, (l.map g).filter p = l.filter p := by
  intro l
  induction l with
  | nil => rfl
  | cons hd tl ih =>
      cases hb : p hd
      · simp [List.filter_cons, hp hd, hb, ih]
      · simp [List.filter_cons, hp hd, hb, hid hd hb, ih]

theorem verifyReplica_files (env : String → String → Option String) (now : Nat)
    (e : String) (db : DFSDatabase) (rep : Replica) :
    (verifyReplica env now e db rep).files = db.files := by
  unfold verifyReplica
  by_cases h : rep.status = "active"
  · rw [if_pos h]
    cases env rep.node_address rep.file_id with
    | none => rfl
    | some actual =>
        by_cases h2 : actual = e <;> simp [h2, update_replica_status]
  · rw [if_neg h]

theorem foldl_verifyReplica_files (env : String → String → Option String)
    (now : Nat) (e : String) :
    ∀ (rs : List Replica) (db : DFSDatabase),
      (rs.foldl (verifyReplica env now e) db).files = db.files := by
  intro rs
  induction rs with
  | nil => intro db; rfl
  | cons hd tl ih =>
      intro db
      rw [List.foldl_cons, ih, verifyReplica_files]

theorem verifyFile_files (env : String → String → Option String) (now : Nat)
    (db : DFSDatabase) (f : FileRow) :
    (verifyFile env now db f).files = db.files := by
  cases hc : f.checksum with
  | none => simp [verifyFile, hc]
  | some e =>
      by_cases h : e = ""
      · simp [verifyFile, hc, h]
      · simp only [verifyFile, hc]
        rw [if_neg h]
        exact foldl_verifyReplica_files env now e _ db

theorem verify_replicas_files (env : String → String → Option String)
    (now : Nat) :
    ∀ (fs : List FileRow) (db : DFSDatabase),
      (fs.foldl (verifyFile env now) db).files = db.files := by
  intro fs
  induction fs with
  | nil => intro db; rfl
  | cons hd tl ih =>
      intro db
      rw [List.foldl_cons, ih, verifyFile_files]

theorem update_get_replicas_ne (db : DFSDatabase) (tf tn s : String)
    (now : Nat) (fid : String) (h : tf ≠ fid) :
    get_replicas (update_replica_status db tf tn s now) fid
      = get_replicas db fid := by
  unfold get_replicas update_replica_status
  apply filter_map_of_pres
  · intro r
    by_cases hc : r.file_id = tf ∧ r.node_id = tn <;> simp [hc]
  · intro r hr
    simp only [decide_eq_true_eq] at hr
    have : ¬ (r.file_id = tf ∧ r.node_id = tn) := by
      rintro ⟨h1, _⟩
      exact h (h1 ▸ hr)
    simp [this]

theorem verifyReplica_get_replicas_ne (env : String → String → Option String)
    (now : Nat) (e : String) (db : DFSDatabase) (rep : Replica) (fid : String)
    (h : rep.file_id ≠ fid) :
    get_replicas (verifyReplica env now e db rep) fid = get_replicas db fid := by
  unfold verifyReplica
  by_cases hs : rep.status = "active"
  · rw [if_pos hs]
    cases henv : env rep.node_address rep.file_id with
    | none => rfl
    | some actual =>
        show get_replicas
            (if actual = e then
              update_replica_status db rep.file_id rep.node_id "active" now
            else
              update_replica_status db rep.file_id rep.node_id "corrupted" now)
            fid = get_replicas db fid
        by_cases h2 : actual = e
        · rw [if_pos h2]
          exact update_get_replicas_ne db rep.file_id rep.node_id "active" now fid h
        · rw [if_neg h2]
          exact update_get_replicas_ne db rep.file_id rep.node_id "corrupted" now fid h
  · rw [if_neg hs]

theorem foldl_verifyReplica_get_replicas_ne
    (env : String → String → Option String) (now : Nat) (e fid : String) :
    ∀ (rs : List Replica) (db : DFSDatabase), (∀ rep ∈ rs, rep.file_id ≠ fid) →
      get_replicas (rs.foldl (verifyReplica env now e) db) fid
        = get_replicas db fid := by
  intro rs
  induction rs with
  | nil => intro db _; rfl
  | cons hd tl ih =>
      intro db hne
      rw [List.foldl_cons, ih _ (fun rep hrep => hne rep (List.mem_cons_of_mem hd hrep)),
        verifyReplica_get_replicas_ne env now e db hd fid (hne hd (List.mem_cons_self hd tl))]

theorem verifyFile_get_replicas_ne (env : String → String → Option String)
    (now : Nat) (db : DFSDatabase) (f : FileRow) (fid : String)
    (h : f.file_id ≠ fid) :
    get_replicas (verifyFile env now db f) fid = get_replicas db fid := by
  cases hc : f.checksum with
  | none => simp [verifyFile, hc]
  | some e =>
      by_cases he : e = ""
      · simp [verifyFile, hc, he]
      · simp only [verifyFile, hc]
        rw [if_neg he]
        apply foldl_verifyReplica_get_replicas_ne
        intro rep hrep
        have : rep.file_id = f.file_id := by
          have := (List.mem_filter.mp hrep).2
          simpa using this
        rw [this]
        exact h

theorem foldl_verifyFile_get_replicas_ne
    (env : String → String → Option String) (now : Nat) (fid : String) :
    ∀ (fs : List FileRow) (db : DFSDatabase), (∀ f ∈ fs, f.file_id ≠ fid) →
      get_replicas (fs.foldl (verifyFile env now) db) fid
        = get_replicas db fid := by
  intro fs
  induction fs with
  | nil => intro db _; rfl
  | cons hd tl ih =>
      intro db hne
      rw [List.foldl_cons, ih _ (fun f hf => hne f (List.mem_cons_of_mem hd hf)),
        verifyFile_get_replicas_ne env now db hd fid (hne hd (List.mem_cons_self hd tl))]

theorem mem_update_of_mem (db : DFSDatabase) (tf tn s : String) (now : Nat)
    (r0 : Replica) (h : r0 ∈ db.replicas) :
    (if r0.file_id = tf ∧ r0.node_id = tn then
        { r0 with status := s, last_verified := some now } else r0)
      ∈ (update_replica_status db tf tn s now).replicas :=
  List.mem_map_of_mem _ h

theorem pairCorrupted_update_ne (db : DFSDatabase) (pf pn tf tn s : String)
    (now : Nat) (h : ¬ (tf = pf ∧ tn = pn)) (hpc : PairCorrupted db pf pn) :
    PairCorrupted (update_replica_status db tf tn s now) pf pn := by
  obtain ⟨hall, r0, hr0, hpf, hpn, hst⟩ := hpc
  constructor
  · intro r' hr' h1 h2
    rcases List.mem_map.mp hr' with ⟨r1, hr1, rfl⟩
    by_cases hc : r1.file_id = tf ∧ r1.node_id = tn
    · exfalso
      rw [if_pos hc] at h1 h2
      exact h ⟨hc.1.symm.trans h1, hc.2.symm.trans h2⟩
    · rw [if_neg hc] at h1 h2 ⊢
      exact hall r1 hr1 h1 h2
  · have hcond : ¬ (r0.file_id = tf ∧ r0.node_id = tn) := by
      rintro ⟨h1, h2⟩
      exact h ⟨h1.symm.trans hpf, h2.symm.trans hpn⟩
    refine ⟨r0, ?_, hpf, hpn, hst⟩
    have hmem := mem_update_of_mem db tf tn s now r0 hr0
    rwa [if_neg hcond] at hmem

theorem pairCorrupted_verifyReplica_ne (env : String → String → Option String)
    (now : Nat) (e : String) (db : DFSDatabase) (rep : Replica) (pf pn : String)
    (h : ¬ (rep.file_id = pf ∧ rep.node_id = pn))
    (hpc : PairCorrupted db pf pn) :
    PairCorrupted (verifyReplica env now e db rep) pf pn := by
  unfold verifyReplica
  by_cases hs : rep.status = "active"
  · rw [if_pos hs]
    cases henv : env rep.node_address rep.file_id with
    | none => exact hpc
    | some actual =>
        show PairCorrupted
          (if actual = e then
            update_replica_status db rep.file_id rep.node_id "active" now
          else
            update_replica_status db rep.file_id rep.node_id "corrupted" now)
          pf pn
        by_cases h2 : actual = e
        · rw [if_pos h2]
          exact pairCorrupted_update_ne db pf pn rep.file_id rep.node_id
            "active" now h hpc
        · rw [if_neg h2]
          exact pairCorrupted_update_ne db pf pn rep.file_id rep.node_id
            "corrupted" now h hpc
  · rw [if_neg hs]
    exact hpc

theorem pairCorrupted_foldl_ne (env : String → String → Option String)
    (now : Nat) (e : String) :
    ∀ (rs : List Replica) (db : DFSDatabase) (pf pn : String),
      (∀ rep ∈ rs, ¬ (rep.file_id = pf ∧ rep.node_id = pn)) →
      PairCorrupted db pf pn →
      PairCorrupted (rs.foldl (verifyReplica env now e) db) pf pn := by
  intro rs
  induction rs with
  | nil => intro db pf pn _ hpc; exact hpc
  | cons hd tl ih =>
      intro db pf pn hne hpc
      rw [List.foldl_cons]
      exact ih _ pf pn (fun rep hrep => hne rep (List.mem_cons_of_mem hd hrep))
        (pairCorrupted_verifyReplica_ne env now e db hd pf pn
          (hne hd (List.mem_cons_self hd tl)) hpc)

theorem pairCorrupted_verifyFile_ne (env : String → String → Option String)
    (now : Nat) (db : DFSDatabase) (f : FileRow) (pf pn : String)
    (h : f.file_id ≠ pf) (hpc : PairCorrupted db pf pn) :
    PairCorrupted (verifyFile env now db f) pf pn := by
  cases hc : f.checksum with
  | none => simpa [verifyFile, hc] using hpc
  | some e =>
      by_cases he : e = ""
      · simpa [verifyFile, hc, he] using hpc
      · simp only [verifyFile, hc]
        rw [if_neg he]
        apply pairCorrupted_foldl_ne env now e _ db pf pn ?_ hpc
        intro rep hrep
        rintro ⟨h1, _⟩
        have : rep.file_id = f.file_id := by
          have := (List.mem_filter.mp hrep).2
          simpa using this
        exact h (this ▸ h1)

theorem pairCorrupted_foldl_files_ne (env : String → String → Option String)
    (now : Nat) :
    ∀ (fs : List FileRow) (db : DFSDatabase) (pf pn : String),
      (∀ f ∈ fs, f.file_id ≠ pf) →
      PairCorrupted db pf pn →
      PairCorrupted (fs.foldl (verifyFile env now) db) pf pn := by
  intro fs
  induction fs with
  | nil => intro db pf pn _ hpc; exact hpc
  | cons hd tl ih =>
      intro db pf pn hne hpc
      rw [List.foldl_cons]
      exact ih _ pf pn (fun f hf => hne f (List.mem_cons_of_mem hd hf))
        (pairCorrupted_verifyFile_ne env now db hd pf pn
          (hne hd (List.mem_cons_self hd tl)) hpc)

theorem pairExists_update (db : DFSDatabase) (tf tn s : String) (now : Nat)
    (pf pn : String)
    (hex : ∃ r0 ∈ db.replicas, r0.file_id = pf ∧ r0.node_id = pn) :
    ∃ r0 ∈ (update_replica_status db tf tn s now).replicas,
      r0.file_id = pf ∧ r0.node_id = pn := by
  rcases hex with ⟨r0, hr0, h1, h2⟩
  have hmem := mem_update_of_mem db tf tn s now r0 hr0
  by_cases hc : r0.file_id = tf ∧ r0.node_id = tn
  · rw [if_pos hc] at hmem
    exact ⟨_, hmem, h1, h2⟩
  · rw [if_neg hc] at hmem
    exact ⟨r0, hmem, h1, h2⟩

theorem pairExists_verifyReplica (env : String → String → Option String)
    (now : Nat) (e : String) (db : DFSDatabase) (rep : Replica) (pf pn : String)
    (hex : ∃ r0 ∈ db.replicas, r0.file_id = pf ∧ r0.node_id = pn) :
    ∃ r0 ∈ (verifyReplica env now e db rep).replicas,
      r0.file_id = pf ∧ r0.node_id = pn := by
  unfold verifyReplica
  by_cases hs : rep.status = "active"
  · rw [if_pos hs]
    cases henv : env rep.node_address rep.file_id with
    | none => exact hex
    | some actual =>
        show ∃ r0 ∈ (if actual = e then
            update_replica_status db rep.file_id rep.node_id "active" now
          else
            update_replica_status db rep.file_id rep.node_id "corrupted" now).replicas,
          r0.file_id = pf ∧ r0.node_id = pn
        by_cases h2 : actual = e
        · rw [if_pos h2]
          exact pairExists_update db rep.file_id rep.node_id "active" now pf pn hex
        · rw [if_neg h2]
          exact pairExists_update db rep.file_id rep.node_id "corrupted" now pf pn hex
  · rw [if_neg hs]
    exact hex

theorem pairCorrupted_force (env : String → String → Option String) (now : Nat)
    (e : String) (db : DFSDatabase) (rep : Replica) (actual : String)
    (hact : rep.status = "active")
    (henv : env rep.node_address rep.file_id = some actual) (hne : actual ≠ e)
    (hex : ∃ r0 ∈ db.replicas, r0.file_id = rep.file_id ∧ r0.node_id = rep.node_id) :
    PairCorrupted (verifyReplica env now e db rep) rep.file_id rep.node_id := by
  unfold verifyReplica
  rw [if_pos hact, henv]
  show PairCorrupted
    (if actual = e then
      update_replica_status db rep.file_id rep.node_id "active" now
    else
      update_replica_status db rep.file_id rep.node_id "corrupted" now)
    rep.file_id rep.node_id
  rw [if_neg hne]
  constructor
  · intro r' hr' h1 h2
    rcases List.mem_map.mp hr' with ⟨r1, hr1, rfl⟩
    by_cases hc : r1.file_id = rep.file_id ∧ r1.node_id = rep.node_id
    · rw [if_pos hc]
    · rw [if_neg hc] at h1 h2
      exact absurd ⟨h1, h2⟩ hc
  · rcases hex with ⟨r0, hr0, h1, h2⟩
    have hmem := mem_update_of_mem db rep.file_id rep.node_id "corrupted" now r0 hr0
    rw [if_pos ⟨h1, h2⟩] at hmem
    exact ⟨_, hmem, h1, h2, rfl⟩

theorem pairCorrupted_fold_force (env : String → String → Option String)
    (now : Nat) (e : String) (r : Replica) (actual : String)
    (hact : r.status = "active")
    (henv : env r.node_address r.file_id = some actual) (hne : actual ≠ e) :
    ∀ (rs : List Replica) (db : DFSDatabase),
      rs.Pairwise (fun a b => a.file_id ≠ b.file_id ∨ a.node_id ≠ b.node_id) →
      r ∈ rs →
      (∃ r0 ∈ db.replicas, r0.file_id = r.file_id ∧ r0.node_id = r.node_id) →
      PairCorrupted (rs.foldl (verifyReplica env now e) db) r.file_id r.node_id := by
  intro rs
  induction rs with
  | nil => intro db _ hmem _; exact absurd hmem (List.not_mem_nil r)
  | cons hd tl ih =>
      intro db hpw hmem hex
      rcases List.pairwise_cons.mp hpw with ⟨hhd, htl⟩
      rw [List.foldl_cons]
      rcases List.mem_cons.mp hmem with rfl | hmem'
      · apply pairCorrupted_foldl_ne env now e tl _ r.file_id r.node_id ?_
          (pairCorrupted_force env now e db r actual hact henv hne hex)
        intro rep hrep
        rintro ⟨e1, e2⟩
        rcases hhd rep hrep with hh | hh
        · exact hh e1.symm
        · exact hh e2.symm
      · exact ih _ htl hmem'
          (pairExists_verifyReplica env now e db hd r.file_id r.node_id hex)

/-- The corruption half of the amended claim: after one verification pass,
every replica row of the mismatching replica's `(file_id, node_id)` pair is
`corrupted` (and such a row exists). -/
theorem verify_replicas_corrupts (env : String → String → Option String)
    (now : Nat) (db : DFSDatabase) (fr : FileRow) (r : Replica)
    (c actual : String)
    (hfiles : db.files.Pairwise fun a b => a.file_id ≠ b.file_id)
    (hpairs : db.replicas.Pairwise fun a b =>
      a.file_id ≠ b.file_id ∨ a.node_id ≠ b.node_id)
    (hfr : fr ∈ db.files) (hc : fr.checksum = some c) (hc0 : c ≠ "")
    (hr : r ∈ db.replicas) (hrf : r.file_id = fr.file_id)
    (hact : r.status = "active")
    (henv : env r.node_address r.file_id = some actual) (hne : actual ≠ c) :
    PairCorrupted (verify_replicas env now db) r.file_id r.node_id := by
  rcases List.append_of_mem hfr with ⟨l1, l2, hsplit⟩
  have hfs := hfiles
  rw [hsplit] at hfs
  rcases List.pairwise_append.mp hfs with ⟨_, hpw2, hcross⟩
  have hl1 : ∀ f ∈ l1, f.file_id ≠ fr.file_id :=
    fun f hf => hcross f hf fr (List.mem_cons_self fr l2)
  have hl2 : ∀ f ∈ l2, f.file_id ≠ fr.file_id :=
    fun f hf => ((List.pairwise_cons.mp hpw2).1 f hf).symm
  unfold verify_replicas
  rw [hsplit, List.foldl_append, List.foldl_cons]
  have hrep1 : get_replicas (l1.foldl (verifyFile env now) db) fr.file_id
      = get_replicas db fr.file_id :=
    foldl_verifyFile_get_replicas_ne env now fr.file_id l1 db hl1
  have hrmem : r ∈ get_replicas db fr.file_id :=
    List.mem_filter.mpr ⟨hr, by simp [hrf]⟩
  have hstep : verifyFile env now (l1.foldl (verifyFile env now) db) fr
      = (get_replicas db fr.file_id).foldl (verifyReplica env now c)
          (l1.foldl (verifyFile env now) db) := by
    simp only [verifyFile, hc]
    rw [if_neg hc0, hrep1]
  rw [hstep]
  refine pairCorrupted_foldl_files_ne env now l2 _ r.file_id r.node_id ?_ ?_
  · intro f hf
    rw [hrf]
    exact hl2 f hf
  · refine pairCorrupted_fold_force env now c r actual hact henv hne
      (get_replicas db fr.file_id) (l1.foldl (verifyFile env now) db)
      (hpairs.sublist (List.filter_sublist db.replicas)) hrmem ?_
    have : r ∈ get_replicas (l1.foldl (verifyFile env now) db) fr.file_id := by
      rw [hrep1]
      exact hrmem
    exact ⟨r, (List.mem_filter.mp this).1, rfl, rfl⟩

theorem mem_pySortDesc (a : FileRecoveryRecord) :
    ∀ l : List FileRecoveryRecord, a ∈ pySortDesc l ↔ a ∈ l := by
  intro l
  induction l with
  | nil => simp [pySortDesc]
  | cons x xs ih => simp [pySortDesc, mem_pyInsertDesc, ih]

theorem mem_enqueue_of_mem (q : List FileRecoveryRecord) (now : Nat)
    (fid fn strat : String) (prio : Nat) (rec : FileRecoveryRecord)
    (h : rec ∈ q) : rec ∈ add_to_recovery_queue q now fid fn strat prio := by
  unfold add_to_recovery_queue
  by_cases hd : q.any (fun r => r.file_id == fid) = true
  · rw [if_pos hd]
    exact h
  · rw [if_neg hd]
    exact (mem_pySortDesc _ _).mpr (List.mem_append_left _ h)

theorem mem_enqueue_cases (q : List FileRecoveryRecord) (now : Nat)
    (fid fn strat : String) (prio : Nat) (rec : FileRecoveryRecord)
    (h : rec ∈ add_to_recovery_queue q now fid fn strat prio) :
    rec ∈ q ∨ rec = mkFileRecoveryRecord fid fn strat prio now := by
  unfold add_to_recovery_queue at h
  by_cases hd : q.any (fun r => r.file_id == fid) = true
  · rw [if_pos hd] at h
    exact Or.inl h
  · rw [if_neg hd] at h
    rcases List.mem_append.mp ((mem_pySortDesc _ _).mp h) with h' | h'
    · exact Or.inl h'
    · right
      simpa using h'

theorem enqueue_self_mem (q : List FileRecoveryRecord) (now : Nat)
    (fid fn strat : String) (prio : Nat)
    (h : ∀ rec ∈ q, rec.file_id ≠ fid) :
    mkFileRecoveryRecord fid fn strat prio now
      ∈ add_to_recovery_queue q now fid fn strat prio := by
  have hany : q.any (fun r => r.file_id == fid) = false := by
    rw [List.any_eq_false]
    intro rec hrec
    simp [h rec hrec]
  unfold add_to_recovery_queue
  rw [if_neg (by simp [hany])]
  exact (mem_pySortDesc _ _).mpr
    (List.mem_append_right _ (List.mem_singleton.mpr rfl))

theorem scan_step_mem (db : DFSDatabase) (now2 : Nat)
    (q : List FileRecoveryRecord) (f : FileRow) (rec : FileRecoveryRecord)
    (h : rec ∈ q) : rec ∈ check_corrupted_step db now2 q f := by
  unfold check_corrupted_step
  by_cases hcc : 0 < ((get_replicas db f.file_id).filter
      fun r => r.status == "corrupted").length
  · rw [if_pos hcc]
    exact mem_enqueue_of_mem q now2 f.file_id f.filename "immediate" 15 rec h
  · rw [if_neg hcc]
    exact h

theorem scan_fold_mem (db : DFSDatabase) (now2 : Nat) :
    ∀ (fs : List FileRow) (q : List FileRecoveryRecord)
      (rec : FileRecoveryRecord), rec ∈ q →
      rec ∈ fs.foldl (check_corrupted_step db now2) q := by
  intro fs
  induction fs with
  | nil => intro q rec h; exact h
  | cons hd tl ih =>
      intro q rec h
      rw [List.foldl_cons]
      exact ih _ rec (scan_step_mem db now2 q hd rec h)

theorem scan_step_nofid (db : DFSDatabase) (now2 : Nat)
    (q : List FileRecoveryRecord) (f : FileRow) (fid : String)
    (hq : ∀ rec ∈ q, rec.file_id ≠ fid) (hf : f.file_id ≠ fid) :
    ∀ rec ∈ check_corrupted_step db now2 q f, rec.file_id ≠ fid := by
  intro rec hrec
  unfold check_corrupted_step at hrec
  by_cases hcc : 0 < ((get_replicas db f.file_id).filter
      fun r => r.status == "corrupted").length
  · rw [if_pos hcc] at hrec
    rcases mem_enqueue_cases q now2 f.file_id f.filename "immediate" 15 rec hrec
      with h' | rfl
    · exact hq rec h'
    · exact hf
  · rw [if_neg hcc] at hrec
    exact hq rec hrec

theorem scan_fold_nofid (db : DFSDatabase) (now2 : Nat) (fid : String) :
    ∀ (fs : List FileRow) (q : List FileRecoveryRecord),
      (∀ f ∈ fs, f.file_id ≠ fid) → (∀ rec ∈ q, rec.file_id ≠ fid) →
      ∀ rec ∈ fs.foldl (check_corrupted_step db now2) q, rec.file_id ≠ fid := by
  intro fs
  induction fs with
  | nil => intro q _ hq; exact hq
  | cons hd tl ih =>
      intro q hfs hq
      rw [List.foldl_cons]
      exact ih _ (fun f hf => hfs f (List.mem_cons_of_mem hd hf))
        (scan_step_nofid db now2 q hd fid hq (hfs hd (List.mem_cons_self hd tl)))

/-- Claim C4 (counterexample): the only active replica of `f` reports
checksum "bad" against the stored "h".  One integrity-verifier pass flips
the replica to `corrupted` — but the recovery queue is still empty
afterwards: the pass does not enqueue; `ReplicationManager._verify_replicas`
never touches the queue, which only the proactive scan of
`AdvancedRecoveryManager` feeds. -/
theorem c4_verifier_pass_does_not_enqueue :
    ((integrity_verifier_pass
        (fun a fid => if a = "a1" ∧ fid = "f" then some "bad" else none) 5
        ⟨mismatchDb, []⟩).db.replicas.map Replica.status = ["corrupted"])
      ∧ (integrity_verifier_pass
          (fun a fid => if a = "a1" ∧ fid = "f" then some "bad" else none) 5
          ⟨mismatchDb, []⟩).queue = [] := by
  decide

/-- Claim C4 (amended): for an active replica whose node reports a checksum
unequal to the file's stored (non-empty) checksum, one integrity-verifier
pass sets the replica's status to `corrupted` but leaves the recovery queue
untouched; the file is then enqueued — with the immediate strategy at
priority 15 — by the next proactive corrupted-replica scan, provided it is
not already queued.  (File ids and `(file_id, node_id)` pairs are assumed
unique, per the schema's intent.) -/
theorem c4_verify_marks_corrupted_and_scan_enqueues
    (env : String → String → Option String) (now now2 : Nat)
    (s : CoordinatorState) (fr : FileRow) (r : Replica) (c actual : String)
    (hfiles : s.db.files.Pairwise fun a b => a.file_id ≠ b.file_id)
    (hpairs : s.db.replicas.Pairwise fun a b =>
      a.file_id ≠ b.file_id ∨ a.node_id ≠ b.node_id)
    (hfr : fr ∈ s.db.files) (hc : fr.checksum = some c) (hc0 : c ≠ "")
    (hr : r ∈ s.db.replicas) (hrf : r.file_id = fr.file_id)
    (hact : r.status = "active")
    (henv : env r.node_address r.file_id = some actual) (hne : actual ≠ c)
    (hq : ∀ rec ∈ s.queue, rec.file_id ≠ fr.file_id) :
    (∀ r' ∈ (integrity_verifier_pass env now s).db.replicas,
        r'.file_id = r.file_id → r'.node_id = r.node_id →
        r'.status = "corrupted")
      ∧ (integrity_verifier_pass env now s).queue = s.queue
      ∧ ∃ rec ∈ check_corrupted_replicas
            (integrity_verifier_pass env now s).db now2 s.queue,
          rec.file_id = fr.file_id ∧ rec.priority = 15
            ∧ rec.strategy = "immediate" := by
  have hpc := verify_replicas_corrupts env now s.db fr r c actual hfiles hpairs
    hfr hc hc0 hr hrf hact henv hne
  refine ⟨hpc.1, rfl, ?_⟩
  have hfiles' : (verify_replicas env now s.db).files = s.db.files := by
    unfold verify_replicas
    exact verify_replicas_files env now s.db.files s.db
  show ∃ rec ∈ check_corrupted_replicas (verify_replicas env now s.db) now2 s.queue,
    rec.file_id = fr.file_id ∧ rec.priority = 15 ∧ rec.strategy = "immediate"
  unfold check_corrupted_replicas
  rw [hfiles']
  rcases List.append_of_mem hfr with ⟨l1, l2, hsplit⟩
  have hfs := hfiles
  rw [hsplit] at hfs
  rcases List.pairwise_append.mp hfs with ⟨_, hpw2, hcross⟩
  have hl1 : ∀ f ∈ l1, f.file_id ≠ fr.file_id :=
    fun f hf => hcross f hf fr (List.mem_cons_self fr l2)
  rw [hsplit, List.foldl_append, List.foldl_cons]
  have hq1 : ∀ rec ∈ l1.foldl
      (check_corrupted_step (verify_replicas env now s.db) now2) s.queue,
      rec.file_id ≠ fr.file_id :=
    scan_fold_nofid (verify_replicas env now s.db) now2 fr.file_id l1 s.queue
      hl1 hq
  have hcount : 0 < ((get_replicas (verify_replicas env now s.db) fr.file_id).filter
      fun rr => rr.status == "corrupted").length := by
    rcases hpc.2 with ⟨r', hr', h1, _, h3⟩
    have hmem : r' ∈ (get_replicas (verify_replicas env now s.db) fr.file_id).filter
        fun rr => rr.status == "corrupted" := by
      refine List.mem_filter.mpr ⟨List.mem_filter.mpr ⟨hr', ?_⟩, ?_⟩
      · simp [h1.trans hrf]
      · simp [h3]
    exact List.length_pos.mpr (List.ne_nil_of_mem hmem)
  have hstep : check_corrupted_step (verify_replicas env now s.db) now2
      (l1.foldl (check_corrupted_step (verify_replicas env now s.db) now2) s.queue) fr
      = add_to_recovery_queue
          (l1.foldl (check_corrupted_step (verify_replicas env now s.db) now2) s.queue)
          now2 fr.file_id fr.filename "immediate" 15 := by
    unfold check_corrupted_step
    rw [if_pos hcount]
  rw [hstep]
  refine ⟨mkFileRecoveryRecord fr.file_id fr.filename "immediate" 15 now2,
    scan_fold_mem (verify_replicas env now s.db) now2 l2 _ _
      (enqueue_self_mem _ now2 fr.file_id fr.filename "immediate" 15 hq1),
    rfl, rfl, rfl⟩

/-- Claim C4 (witness for the amended theorem): the concrete mismatching
store; after the verifier pass the scan enqueues file `f` at priority 15. -/
theorem c4_verify_marks_corrupted_and_scan_enqueues_witness :
    (∀ r' ∈ (integrity_verifier_pass
        (fun a fid => if a = "a1" ∧ fid = "f" then some "bad" else none) 5
        ⟨mismatchDb, []⟩).db.replicas,
        r'.file_id = "f" → r'.node_id = "n1" → r'.status = "corrupted")
      ∧ (integrity_verifier_pass
          (fun a fid => if a = "a1" ∧ fid = "f" then some "bad" else none) 5
          ⟨mismatchDb, []⟩).queue = []
      ∧ ∃ rec ∈ check_corrupted_replicas
            (integrity_verifier_pass
              (fun a fid => if a = "a1" ∧ fid = "f" then some "bad" else none) 5
              ⟨mismatchDb, []⟩).db 6 [],
          rec.file_id = "f" ∧ rec.priority = 15 ∧ rec.strategy = "immediate" :=
  c4_verify_marks_corrupted_and_scan_enqueues
    (fun a fid => if a = "a1" ∧ fid = "f" then some "bad" else none) 5 6
    ⟨mismatchDb, []⟩ ⟨"f", "doc", 1, some "h", 2⟩
    ⟨"f", "n1", "a1", "active", none⟩ "h" "bad"
    (by decide) (by decide) (by decide) (by decide) (by decide) (by decide)
    (by decide) (by decide) (by decide) (by decide) (by decide)

end DFS
